import Mathlib

/-!
# Verification of the diabetes-prediction app core logic

Shallow embedding of the categorization, input, prediction-adapter and
prediction-history logic of `app.py` (a Streamlit application), together
with theorems settling the specification claims about it.

Numeric measurements are modelled as rationals (`ℚ`); the external model
and scaler artifacts are modelled as abstract structures whose operations
can fail (`Option`), matching the `try/except` wrappers in the source.
-/

namespace DiabetesApp

/-- Embeds `analyze_glucose_level` (app.py lines 320-345): the five-band
glucose categorizer returning (category, color, risk). Strings are the
source's Indonesian labels: "Puasa" = fasting, "2 jam" = 2-hour,
"Rendah"/"Sedang"/"Tinggi" = Low/Medium/High risk. -/
def analyze_glucose_level (glucose_value : ℚ) : String × String × String :=
  if glucose_value < 100 then ("Normal (Puasa)", "green", "Rendah")
  else if glucose_value < 126 then ("Prediabetes (Puasa)", "orange", "Sedang")
  else if glucose_value < 140 then ("Diabetes (Puasa)", "red", "Tinggi")
  else if glucose_value < 200 then ("Prediabetes (2 jam)", "orange", "Sedang")
  else ("Diabetes (2 jam)", "red", "Tinggi")

/-- Embeds the live sidebar glucose feedback of `get_user_input`
(app.py lines 178-188): the three-band classification returning
(glucose_status, glucose_class). -/
def glucose_status (glucose : ℚ) : String × String :=
  if glucose < 140 then ("🟢 Normal", "glukosa-normal")
  else if glucose < 200 then ("🟡 Prediabetes", "glukosa-prediabetes")
  else ("🔴 Diabetes", "glukosa-diabetes")

/-- The eight measurements of one patient, in the source's naming
(the `data` dictionary of `get_user_input`, app.py lines 284-293). -/
structure PatientInput where
  pregnancies : ℚ
  glucose : ℚ
  bloodPressure : ℚ
  skinThickness : ℚ
  insulin : ℚ
  bmi : ℚ
  diabetesPedigreeFunction : ℚ
  age : ℚ
  deriving Repr, DecidableEq

/-- The single row of the DataFrame built by `get_user_input`
(app.py lines 284-295): the eight fields in the fixed dictionary
insertion order Pregnancies, Glucose, BloodPressure, SkinThickness,
Insulin, BMI, DiabetesPedigreeFunction, Age. -/
def input_row (p : PatientInput) : List ℚ :=
  [p.pregnancies, p.glucose, p.bloodPressure, p.skinThickness,
   p.insulin, p.bmi, p.diabetesPedigreeFunction, p.age]

/-- A Streamlit bounded slider: the widget can only yield values inside
[lo, hi]; an arbitrary requested value is clamped into the range. -/
def slider (lo hi choice : ℚ) : ℚ :=
  max lo (min hi choice)

/-- The eight raw slider positions a user may attempt to set. -/
structure SliderChoices where
  pregnancies : ℚ
  glucose : ℚ
  bloodPressure : ℚ
  skinThickness : ℚ
  insulin : ℚ
  bmi : ℚ
  diabetesPedigree : ℚ
  age : ℚ

/-- Embeds `get_user_input` (app.py lines 139-295): each field comes
from a bounded slider with the declared (min, max) bounds; the result is
the single-row DataFrame content. -/
def get_user_input (c : SliderChoices) : PatientInput :=
  { pregnancies := slider 0 20 c.pregnancies
    glucose := slider 50 400 c.glucose
    bloodPressure := slider 40 180 c.bloodPressure
    skinThickness := slider 0 99 c.skinThickness
    insulin := slider 0 1000 c.insulin
    bmi := slider 10 60 c.bmi
    diabetesPedigreeFunction := slider (8/100) (5/2) c.diabetesPedigree
    age := slider 0 100 c.age }

/-- The declared closed range of every field (the slider bounds of
`get_user_input`, app.py lines 152-270). -/
def fieldsInRange (p : PatientInput) : Prop :=
  (0 ≤ p.pregnancies ∧ p.pregnancies ≤ 20) ∧
  (50 ≤ p.glucose ∧ p.glucose ≤ 400) ∧
  (40 ≤ p.bloodPressure ∧ p.bloodPressure ≤ 180) ∧
  (0 ≤ p.skinThickness ∧ p.skinThickness ≤ 99) ∧
  (0 ≤ p.insulin ∧ p.insulin ≤ 1000) ∧
  (10 ≤ p.bmi ∧ p.bmi ≤ 60) ∧
  (8/100 ≤ p.diabetesPedigreeFunction ∧ p.diabetesPedigreeFunction ≤ 5/2) ∧
  (0 ≤ p.age ∧ p.age ≤ 100)

instance (p : PatientInput) : Decidable (fieldsInRange p) := by
  unfold fieldsInRange; infer_instance

/-- The external scaler artifact: `transform(vector) -> vector`,
failing (raising) modelled as `none`. -/
structure Scaler where
  transform : List ℚ → Option (List ℚ)

/-- The external classifier artifact: `predict` returns an array of
labels, `predict_proba` an array of per-sample distributions; either
call failing is modelled as `none`. -/
structure MLModel where
  predict : List ℚ → Option (List ℤ)
  predict_proba : List ℚ → Option (List (List ℚ))

/-- Embeds `make_prediction` (app.py lines 300-315): scale the input
row, call `model.predict` and `model.predict_proba` on the scaled
vector, return `(prediction[0], prediction_proba[0])`; any exception in
the `try` block yields `(None, None)`, modelled as `none`. No input
validation is performed. -/
def make_prediction (model : MLModel) (scaler : Scaler)
    (input_df : PatientInput) : Option (ℤ × List ℚ) :=
  match scaler.transform (input_row input_df) with
  | none => none
  | some input_scaled =>
    match model.predict input_scaled, model.predict_proba input_scaled with
    | some preds, some probas =>
      match preds.head?, probas.head? with
      | some p, some pr => some (p, pr)
      | _, _ => none
    | _, _ => none

/-- One record of `st.session_state.prediction_history` (the dictionary
built at app.py lines 495-502). -/
structure HistoryEntry where
  data : PatientInput
  label : ℤ
  probabilities : List ℚ
  timestamp : String
  glucose : ℚ
  glucose_category : String
  deriving Repr, DecidableEq

/-- The session state relevant to prediction (app.py lines 109-112). -/
structure AppState where
  prediction_history : List HistoryEntry
  current_prediction : Option HistoryEntry
  deriving Repr, DecidableEq

/-- Embeds the predict-button handler (app.py lines 484-507): if the
artifacts loaded and `make_prediction` succeeded, build the result
record, store it as `current_prediction` and append it to
`prediction_history`; on any failure the state is left untouched. -/
def predict_button_handler (loaded : Option (MLModel × Scaler))
    (input_df : PatientInput) (ts : String) (s : AppState) : AppState :=
  match loaded with
  | none => s
  | some (model, scaler) =>
    match make_prediction model scaler input_df with
    | none => s
    | some (label, probabilities) =>
      let entry : HistoryEntry :=
        { data := input_df
          label := label
          probabilities := probabilities
          timestamp := ts
          glucose := input_df.glucose
          glucose_category := (analyze_glucose_level input_df.glucose).1 }
      { prediction_history := s.prediction_history ++ [entry]
        current_prediction := some entry }

/-- Embeds the clear-history button handler (app.py lines 382-384):
`st.session_state.prediction_history = []`; `current_prediction` is not
touched. -/
def clear_button_handler (s : AppState) : AppState :=
  { prediction_history := [], current_prediction := s.current_prediction }

/-- Embeds the history display query (app.py line 748):
`reversed(prediction_history[-5:])` generalized over the count `n` —
the last `n` entries, most-recent-first. The underlying list itself is
not modified. -/
def recent (hist : List HistoryEntry) (n : Nat) : List HistoryEntry :=
  (hist.drop (hist.length - n)).reverse

/-- The reachable session states: the initial empty state (app.py lines
109-112), and the states produced by the predict-button handler (with
any load outcome, input and timestamp) and by the clear-history button
(only offered while the history is non-empty, app.py line 376). -/
inductive Reachable : AppState → Prop where
  | init : Reachable ⟨[], none⟩
  | predict (s : AppState) (loaded : Option (MLModel × Scaler))
      (input_df : PatientInput) (ts : String) :
      Reachable s → Reachable (predict_button_handler loaded input_df ts s)
  | clear (s : AppState) : Reachable s → s.prediction_history ≠ [] →
      Reachable (clear_button_handler s)

/-- A scaler stub that succeeds and returns its input unchanged. -/
def stubScaler : Scaler := ⟨fun v => some v⟩

/-- A classifier stub returning label 0 and distribution [0.8, 0.2] for
every input. -/
def stubModel : MLModel :=
  ⟨fun _ => some [0], fun _ => some [[4/5, 1/5]]⟩

/-- A scaler stub that always fails (models a raising `transform`). -/
def failScaler : Scaler := ⟨fun _ => none⟩

/-- The end-to-end test input of spec §8: Pregnancies 1, Glucose 120,
BloodPressure 70, SkinThickness 20, Insulin 80, BMI 25.0,
DiabetesPedigree 0.5, Age 30. -/
def c3Input : PatientInput := ⟨1, 120, 70, 20, 80, 25, 1/2, 30⟩

/-- An input whose Glucose field (1000) is far outside the declared
range [50, 400]; the other fields are the defaults. -/
def outOfRangeInput : PatientInput := ⟨1, 1000, 70, 20, 80, 25, 1/2, 30⟩

/-- The history entry the predict-button handler builds for `c3Input`
under the stub model and scaler at timestamp "t". -/
def c3HistEntry : HistoryEntry :=
  { data := c3Input
    label := 0
    probabilities := [4/5, 1/5]
    timestamp := "t"
    glucose := 120
    glucose_category := "Prediabetes (Puasa)" }

/-- A probability list of exactly 2 non-negative entries summing to 1.0
within 1e-6 (spec §3, §8). -/
def IsBinaryDistribution (pr : List ℚ) : Prop :=
  pr.length = 2 ∧ (∀ x ∈ pr, 0 ≤ x) ∧ |pr.sum - 1| ≤ 1/1000000

/-- Modelled from the spec: the classifier artifact
`best_diabetes_model.pkl` is not part of the source tree; spec §6
contracts its `predict_proba` to return, per sample, a distribution
over the 2 classes, i.e. every row is a binary distribution. -/
def SpecConformantProba (m : MLModel) : Prop :=
  ∀ v probas, m.predict_proba v = some probas →
    ∀ pr ∈ probas, IsBinaryDistribution pr

/-- Helper: clamping into a non-empty interval lands in the interval. -/
theorem slider_mem_range (lo hi x : ℚ) (h : lo ≤ hi) :
    lo ≤ slider lo hi x ∧ slider lo hi x ≤ hi :=
  ⟨le_max_left lo _, max_le h (min_le_left hi x)⟩

/-- Helper: a successful `make_prediction` decomposes into a successful
scaler transform of the input row followed by the model applied to the
scaled vector, taking the first element of each returned array. -/
theorem make_prediction_eq_some {m : MLModel} {sc : Scaler}
    {p : PatientInput} {label : ℤ} {proba : List ℚ}
    (h : make_prediction m sc p = some (label, proba)) :
    ∃ scaled preds probas,
      sc.transform (input_row p) = some scaled ∧
      m.predict scaled = some preds ∧
      m.predict_proba scaled = some probas ∧
      preds.head? = some label ∧
      probas.head? = some proba := by
  unfold make_prediction at h
  split at h
  · exact absurd h (by simp)
  · rename_i scaled hv
    split at h
    · rename_i preds probas hp hq
      split at h
      · rename_i l pr hl hr
        simp only [Option.some.injEq, Prod.mk.injEq] at h
        obtain ⟨rfl, rfl⟩ := h
        exact ⟨scaled, preds, probas, hv, hp, hq, hl, hr⟩
      · exact absurd h (by simp)
    · exact absurd h (by simp)

/-- Helper: the display query equals "reverse, then take n": the last
`n` entries in most-recent-first order. -/
theorem recent_eq_reverse_take (hist : List HistoryEntry) (n : Nat) :
    recent hist n = hist.reverse.take n := by
  have h : recent hist n = (List.rtake hist n).reverse := rfl
  rw [h, List.rtake_eq_reverse_take_reverse, List.reverse_reverse]

/-- C1: for every numeric glucose value g, `analyze_glucose_level`
returns exactly the five-band classification by the first matching
half-open interval: g < 100 is Normal (fasting = "Puasa") with Low
("Rendah") risk; 100 ≤ g < 126 is Prediabetes (fasting) with Medium
("Sedang") risk; 126 ≤ g < 140 is Diabetes (fasting) with High
("Tinggi") risk; 140 ≤ g < 200 is Prediabetes (2-hour = "2 jam") with
Medium risk; g ≥ 200 is Diabetes (2-hour) with High risk. In particular
g = 199.999 is classified Prediabetes and g = 200 Diabetes. -/
theorem C1_five_band_categorizer (g : ℚ) :
    (g < 100 →
      analyze_glucose_level g = ("Normal (Puasa)", "green", "Rendah")) ∧
    (100 ≤ g → g < 126 →
      analyze_glucose_level g = ("Prediabetes (Puasa)", "orange", "Sedang")) ∧
    (126 ≤ g → g < 140 →
      analyze_glucose_level g = ("Diabetes (Puasa)", "red", "Tinggi")) ∧
    (140 ≤ g → g < 200 →
      analyze_glucose_level g = ("Prediabetes (2 jam)", "orange", "Sedang")) ∧
    (200 ≤ g →
      analyze_glucose_level g = ("Diabetes (2 jam)", "red", "Tinggi")) ∧
    analyze_glucose_level (199999/1000) =
      ("Prediabetes (2 jam)", "orange", "Sedang") ∧
    analyze_glucose_level 200 = ("Diabetes (2 jam)", "red", "Tinggi") := by
  refine ⟨fun h1 => ?_, fun h1 h2 => ?_, fun h1 h2 => ?_, fun h1 h2 => ?_,
    fun h1 => ?_, by norm_num [analyze_glucose_level],
    by norm_num [analyze_glucose_level]⟩ <;>
  · unfold analyze_glucose_level
    split_ifs <;> first | rfl | (exfalso; linarith)

/-- Witness for C1 at g = 90. -/
theorem C1_five_band_categorizer_witness :
    analyze_glucose_level 90 = ("Normal (Puasa)", "green", "Rendah") :=
  (C1_five_band_categorizer 90).1 (by norm_num)

/-- C5: the independent three-band sidebar classification uses only the
2-hour thresholds: g < 140 is Normal, 140 ≤ g < 200 is Prediabetes,
g ≥ 200 is Diabetes; and it is distinct from the five-band one: on
126 ≤ g < 140 the two assign different category names ("🟢 Normal"
versus "Diabetes (Puasa)"). -/
theorem C5_three_band_sidebar (g : ℚ) :
    (g < 140 → glucose_status g = ("🟢 Normal", "glukosa-normal")) ∧
    (140 ≤ g → g < 200 →
      glucose_status g = ("🟡 Prediabetes", "glukosa-prediabetes")) ∧
    (200 ≤ g → glucose_status g = ("🔴 Diabetes", "glukosa-diabetes")) ∧
    (126 ≤ g → g < 140 →
      (glucose_status g).1 ≠ (analyze_glucose_level g).1) := by
  refine ⟨fun h1 => ?_, fun h1 h2 => ?_, fun h1 => ?_, fun h1 h2 => ?_⟩ <;>
  · simp only [glucose_status, analyze_glucose_level]
    split_ifs <;> first | rfl | decide | (exfalso; linarith)

/-- Witness for C5 at g = 130: three-band says Normal while the
five-band categorizer disagrees on the name. -/
theorem C5_three_band_sidebar_witness :
    glucose_status 130 = ("🟢 Normal", "glukosa-normal") ∧
    (glucose_status 130).1 ≠ (analyze_glucose_level 130).1 :=
  ⟨(C5_three_band_sidebar 130).1 (by norm_num),
   (C5_three_band_sidebar 130).2.2.2 (by norm_num) (by norm_num)⟩

/-- C6: the history display returns at most the last 5 entries in
most-recent-first order (`recent hist 5 = hist.reverse.take 5` and has
length ≤ 5); after any append, the single most recent entry is exactly
the appended one; and appending never truncates the underlying
sequence: the previous entries remain an initial segment and the length
grows by one. -/
theorem C6_recent_display (hist : List HistoryEntry) (e : HistoryEntry) :
    recent hist 5 = hist.reverse.take 5 ∧
    (recent hist 5).length ≤ 5 ∧
    recent (hist ++ [e]) 1 = [e] ∧
    (hist ++ [e]).take hist.length = hist ∧
    (hist ++ [e]).length = hist.length + 1 := by
  refine ⟨recent_eq_reverse_take hist 5, ?_, ?_, ?_, by simp⟩
  · rw [recent_eq_reverse_take]
    simp
  · rw [recent_eq_reverse_take]
    simp
  · exact List.take_left hist [e]

/-- C7: the clear operation empties the history unconditionally, so a
subsequent query for the 5 most recent entries returns the empty
sequence. -/
theorem C7_clear_history (s : AppState) :
    (clear_button_handler s).prediction_history = [] ∧
    recent (clear_button_handler s).prediction_history 5 = [] := by
  constructor <;> rfl

/-- C2 counterexample: `outOfRangeInput` has Glucose = 1000, far
outside the declared range [50, 400], yet no validation failure occurs:
`make_prediction` happily scales it and returns the stub model's
prediction. There is no ValidationError path in the code. -/
theorem C2_no_validation_counterexample :
    ¬ fieldsInRange outOfRangeInput ∧
    make_prediction stubModel stubScaler outOfRangeInput =
      some (0, [4/5, 1/5]) := by
  constructor
  · decide
  · rfl

/-- C2 amended: every input built through the intended entry path (the
bounded sliders of `get_user_input`) lies within the declared ranges,
but out-of-range values supplied another way are not rejected:
`make_prediction` performs no range validation and succeeds on any
input whenever the scaler and model succeed on its row. -/
theorem C2_entry_path_bounds_no_validation (c : SliderChoices)
    (m : MLModel) (sc : Scaler) (p : PatientInput)
    (v : List ℚ) (preds : List ℤ) (probas : List (List ℚ))
    (l : ℤ) (pr : List ℚ)
    (hv : sc.transform (input_row p) = some v)
    (hp : m.predict v = some preds)
    (hq : m.predict_proba v = some probas)
    (hl : preds.head? = some l)
    (hr : probas.head? = some pr) :
    fieldsInRange (get_user_input c) ∧
    make_prediction m sc p = some (l, pr) := by
  constructor
  · exact ⟨slider_mem_range 0 20 c.pregnancies (by norm_num),
      slider_mem_range 50 400 c.glucose (by norm_num),
      slider_mem_range 40 180 c.bloodPressure (by norm_num),
      slider_mem_range 0 99 c.skinThickness (by norm_num),
      slider_mem_range 0 1000 c.insulin (by norm_num),
      slider_mem_range 10 60 c.bmi (by norm_num),
      slider_mem_range (8/100) (5/2) c.diabetesPedigree (by norm_num),
      slider_mem_range 0 100 c.age (by norm_num)⟩
  · unfold make_prediction
    simp only [hv, hp, hq, hl, hr]

/-- Witness for the amended C2: the out-of-range input is predicted on,
not rejected, while slider-built inputs are always in range. -/
theorem C2_entry_path_bounds_no_validation_witness :
    fieldsInRange (get_user_input ⟨0, 0, 0, 0, 0, 0, 0, 0⟩) ∧
    make_prediction stubModel stubScaler outOfRangeInput =
      some (0, [4/5, 1/5]) :=
  C2_entry_path_bounds_no_validation ⟨0, 0, 0, 0, 0, 0, 0, 0⟩
    stubModel stubScaler outOfRangeInput
    (input_row outOfRangeInput) [0] [[4/5, 1/5]] 0 [4/5, 1/5]
    rfl rfl rfl rfl rfl

/-- C3 counterexample: for the §8 end-to-end input (Glucose 120) under
the stub model, the stored glucose category is "Prediabetes (Puasa)"
(the five-band categorizer puts 120 in [100, 126)), not the claimed
"Normal (2 jam)", and the five-band risk at 120 is "Sedang" (Medium),
not Low. -/
theorem C3_end_to_end_counterexample :
    (predict_button_handler (some (stubModel, stubScaler)) c3Input "t"
        ⟨[], none⟩).prediction_history.map HistoryEntry.glucose_category =
      ["Prediabetes (Puasa)"] ∧
    "Prediabetes (Puasa)" ≠ "Normal (2 jam)" ∧
    (analyze_glucose_level 120).2.2 = "Sedang" := by
  refine ⟨rfl, by decide, rfl⟩

/-- C3 amended: the §8 input run through the stub model (label 0,
distribution [0.8, 0.2]) yields exactly one history entry whose
category is "Prediabetes (Puasa)" with risk "Sedang" (Medium), class
label 0 (NonDiabetic), and probabilities exactly [0.8, 0.2]. -/
theorem C3_end_to_end :
    (predict_button_handler (some (stubModel, stubScaler)) c3Input "t"
        ⟨[], none⟩).prediction_history = [c3HistEntry] ∧
    c3HistEntry.glucose_category = "Prediabetes (Puasa)" ∧
    c3HistEntry.label = 0 ∧
    c3HistEntry.probabilities = [4/5, 1/5] ∧
    (analyze_glucose_level c3Input.glucose).2.2 = "Sedang" := by
  refine ⟨?_, rfl, rfl, rfl, rfl⟩
  rfl

/-- C4: whenever a prediction succeeds, its outputs come from applying
the model to the scaler-transformed input row — the eight fields in the
fixed order Pregnancies, Glucose, BloodPressure, SkinThickness,
Insulin, BMI, DiabetesPedigreeFunction, Age — never to the raw row. -/
theorem C4_scale_before_predict (m : MLModel) (sc : Scaler)
    (p : PatientInput) (label : ℤ) (proba : List ℚ)
    (h : make_prediction m sc p = some (label, proba)) :
    input_row p = [p.pregnancies, p.glucose, p.bloodPressure,
      p.skinThickness, p.insulin, p.bmi, p.diabetesPedigreeFunction,
      p.age] ∧
    ∃ scaled preds probas,
      sc.transform (input_row p) = some scaled ∧
      m.predict scaled = some preds ∧
      m.predict_proba scaled = some probas ∧
      preds.head? = some label ∧
      probas.head? = some proba :=
  ⟨rfl, make_prediction_eq_some h⟩

/-- Witness for C4 with the stub model on the §8 input. -/
theorem C4_scale_before_predict_witness :
    input_row c3Input = [c3Input.pregnancies, c3Input.glucose,
      c3Input.bloodPressure, c3Input.skinThickness, c3Input.insulin,
      c3Input.bmi, c3Input.diabetesPedigreeFunction, c3Input.age] ∧
    ∃ scaled preds probas,
      stubScaler.transform (input_row c3Input) = some scaled ∧
      stubModel.predict scaled = some preds ∧
      stubModel.predict_proba scaled = some probas ∧
      preds.head? = some 0 ∧
      probas.head? = some [4/5, 1/5] :=
  C4_scale_before_predict stubModel stubScaler c3Input 0 [4/5, 1/5] rfl

/-- C8: for a classifier whose `predict_proba` conforms to the spec §6
contract (every returned row is a distribution over the 2 classes),
every probability list returned by a successful `make_prediction` has
exactly 2 non-negative entries summing to 1.0 within 1e-6. -/
theorem C8_binary_distribution (m : MLModel) (sc : Scaler)
    (p : PatientInput) (label : ℤ) (proba : List ℚ)
    (hm : SpecConformantProba m)
    (h : make_prediction m sc p = some (label, proba)) :
    IsBinaryDistribution proba := by
  obtain ⟨scaled, preds, probas, _, _, hq, _, hr⟩ :=
    make_prediction_eq_some h
  refine hm scaled probas hq proba ?_
  cases probas with
  | nil => exact absurd hr (by simp)
  | cons a t =>
    simp only [List.head?_cons, Option.some.injEq] at hr
    exact hr ▸ List.mem_cons_self a t

/-- Witness for C8: the stub model conforms and its output [0.8, 0.2]
is a binary distribution. -/
theorem C8_binary_distribution_witness :
    IsBinaryDistribution [4/5, 1/5] :=
  C8_binary_distribution stubModel stubScaler c3Input 0 [4/5, 1/5]
    (fun v probas h pr hpr => by
      simp only [stubModel, Option.some.injEq] at h
      subst h
      simp only [List.mem_singleton] at hpr
      subst hpr
      refine ⟨rfl, ?_, by simp only [List.sum_cons, List.sum_nil]; norm_num⟩
      intro x hx
      simp only [List.mem_cons, List.not_mem_nil, or_false] at hx
      rcases hx with rfl | rfl <;> norm_num)
    rfl

/-- C9: if the artifacts fail to load (model/scaler `None`) or the
prediction call fails, the predict-button handler leaves the session
state untouched: neither the history nor the current prediction
changes. -/
theorem C9_failure_preserves_state (m : MLModel) (sc : Scaler)
    (p : PatientInput) (ts : String) (s : AppState)
    (hfail : make_prediction m sc p = none) :
    predict_button_handler none p ts s = s ∧
    predict_button_handler (some (m, sc)) p ts s = s := by
  constructor
  · rfl
  · simp only [predict_button_handler, hfail]

/-- Witness for C9: a failing scaler leaves the empty state unchanged. -/
theorem C9_failure_preserves_state_witness :
    predict_button_handler none c3Input "t" ⟨[], none⟩ = ⟨[], none⟩ ∧
    predict_button_handler (some (stubModel, failScaler)) c3Input "t"
      ⟨[], none⟩ = ⟨[], none⟩ :=
  C9_failure_preserves_state stubModel failScaler c3Input "t" ⟨[], none⟩ rfl

/-- C10: in every reachable session state, every history entry's stored
glucose value equals the Glucose field of its stored input snapshot,
and its stored category is the five-band categorizer applied to that
glucose value. -/
theorem C10_history_entry_consistency (s : AppState) (hs : Reachable s) :
    ∀ e ∈ s.prediction_history,
      e.glucose = e.data.glucose ∧
      e.glucose_category = (analyze_glucose_level e.glucose).1 := by
  induction hs with
  | init =>
    intro e he
    exact absurd he (by simp)
  | predict s loaded input_df ts hs ih =>
    intro e he
    cases loaded with
    | none => exact ih e he
    | some msc =>
      obtain ⟨model, scaler⟩ := msc
      cases hmp : make_prediction model scaler input_df with
      | none =>
        simp only [predict_button_handler, hmp] at he
        exact ih e he
      | some res =>
        obtain ⟨label, probabilities⟩ := res
        simp only [predict_button_handler, hmp, List.mem_append,
          List.mem_singleton] at he
        rcases he with he | he
        · exact ih e he
        · subst he
          exact ⟨rfl, rfl⟩
  | clear s hs hne ih =>
    intro e he
    exact absurd he (by simp [clear_button_handler])

/-- Witness for C10: the state reached by one successful stub
prediction from the initial state satisfies the invariant at its single
entry. -/
theorem C10_history_entry_consistency_witness :
    c3HistEntry.glucose = c3HistEntry.data.glucose ∧
    c3HistEntry.glucose_category =
      (analyze_glucose_level c3HistEntry.glucose).1 :=
  C10_history_entry_consistency
    (predict_button_handler (some (stubModel, stubScaler)) c3Input "t"
      ⟨[], none⟩)
    (Reachable.predict ⟨[], none⟩ (some (stubModel, stubScaler)) c3Input
      "t" Reachable.init)
    c3HistEntry
    (by
      have h : (predict_button_handler (some (stubModel, stubScaler))
          c3Input "t" ⟨[], none⟩).prediction_history = [c3HistEntry] := rfl
      rw [h]
      exact List.mem_singleton.mpr rfl)

end DiabetesApp
